import Mathlib

/-!
Shallow embedding of the PDF layout engine in `src/fpdf/__init__.py`
(a minimal FPDF-compatible facade built on top of a PyMuPDF document).

Conventions of the embedding:

* Python floats are modelled as rationals (`ℚ`), so the arithmetic is exact.
* The PyMuPDF document (`self.doc`) is modelled by its page count (`doc`,
  the value of `len(self.doc)`) together with a trace of drawing events
  (`events`): appending a page, inserting a textbox, inserting an image.
  The trace makes ordering facts ("the page break happens before the text
  is drawn") stateable.
* `self.page : Optional[fitz.Page]` is modelled by the Boolean `page`
  (`true` iff the attribute is not `None`).
* External engine calls whose results the layout code consumes are oracle
  parameters: the height report of `Page.insert_textbox` in `multi_cell`
  is the parameter `report`, the decoded pixmap of `fitz.Pixmap` in
  `image` is the parameter `pix : Option (ℚ × ℚ)` (`none` models a missing
  or undecodable file, which raises), the filesystem probe of
  `Path.exists` in `add_font` is the parameter `fexists`, and
  `Document.insert_font` is the oracle `insert_font_oracle`.
* Methods that can raise return `Except`; the error value carries the
  state of the object at the moment the exception propagates (Python
  objects keep mutations made before a raise).
-/

/-- Event trace of operations performed on the underlying PyMuPDF document:
`new_page`, `Page.insert_textbox` (via `_insert_text` or `multi_cell`), and
`Page.insert_image`. -/
inductive Event where
  | newPage : Event
  | textbox : ℚ → ℚ → ℚ → ℚ → String → Event
  | imageDraw : ℚ → ℚ → ℚ → ℚ → String → Event
deriving DecidableEq

/-- Horizontal position directives of the `cell` API (class `XPos`). -/
inductive XPos where
  | LEFT | LMARGIN | RIGHT | RMARGIN | NEXT
deriving DecidableEq

/-- Vertical position directives of the `cell` API (class `YPos`). -/
inductive YPos where
  | TOP | NEXT
deriving DecidableEq

/-- Python's `str.upper()` modelled characterwise (the font code only
upper-cases ASCII family and style names). -/
def pyUpper (s : String) : String := ⟨s.data.map Char.toUpper⟩

/-- Identity of a logical font: family and style, as in `_FontKey`. -/
structure FontKey where
  family : String
  style : String
deriving DecidableEq

/-- `_FontKey.create`: case-normalizes both components. -/
def FontKey.create (family : String) (style : String := "") : FontKey :=
  ⟨pyUpper family, pyUpper style⟩

/-- The canvas state: the attributes of an `FPDF` instance. -/
structure FPDF where
  page_width : ℚ
  page_height : ℚ
  doc : ℕ
  events : List Event
  page : Bool
  left_margin : ℚ
  right_margin : ℚ
  top_margin : ℚ
  bottom_margin : ℚ
  auto_page_break : Bool
  auto_page_break_margin : ℚ
  x : ℚ
  y : ℚ
  font_size : ℚ
  font_map : FontKey → Option String
  font_key : FontKey

/-- The fixed mm-to-point conversion factor `self._k = 72.0 / 25.4`. -/
def FPDF._k : ℚ := 72 / 25.4

/-- The state built by `FPDF.__init__("P", "mm", "A4")` (the constructor
defaults): A4 portrait, 10 mm margins, auto page break on with a 15 mm
trigger margin, cursor at the margins, font size 12, empty font map,
active key HELVETICA regular, no page yet. -/
def FPDF.init : FPDF where
  page_width := 210 * FPDF._k
  page_height := 297 * FPDF._k
  doc := 0
  events := []
  page := false
  left_margin := 10 * FPDF._k
  right_margin := 10 * FPDF._k
  top_margin := 10 * FPDF._k
  bottom_margin := 10 * FPDF._k
  auto_page_break := true
  auto_page_break_margin := 15 * FPDF._k
  x := 10 * FPDF._k
  y := 10 * FPDF._k
  font_size := 12
  font_map := fun _ => none
  font_key := FontKey.create "HELVETICA" ""

/-- `FPDF.add_page`: appends a new page to the document and resets the
cursor to the top-left margin corner. -/
def FPDF.add_page (s : FPDF) : FPDF :=
  { s with
    doc := s.doc + 1
    events := s.events ++ [Event.newPage]
    page := true
    x := s.left_margin
    y := s.top_margin }

/-- `FPDF.set_auto_page_break`. -/
def FPDF.set_auto_page_break (s : FPDF) (auto : Bool) (margin : ℚ := 0) : FPDF :=
  { s with auto_page_break := auto, auto_page_break_margin := margin * FPDF._k }

/-- `FPDF.page_no`: `len(self.doc)`. -/
def FPDF.page_no (s : FPDF) : ℕ := s.doc

/-- `FPDF.get_y`. -/
def FPDF.get_y (s : FPDF) : ℚ := s.y / FPDF._k

/-- `FPDF.set_y`. -/
def FPDF.set_y (s : FPDF) (y : ℚ) : FPDF :=
  { s with y := y * FPDF._k }

/-- `FPDF._line_height`. -/
def FPDF._line_height (s : FPDF) : ℚ := s.font_size * 1.2

/-- `FPDF._resolve_width`. -/
def FPDF._resolve_width (s : FPDF) (w : ℚ) : ℚ :=
  if w = 0 then s.page_width - s.right_margin - s.x
  else w * FPDF._k

/-- `FPDF._resolve_height`. -/
def FPDF._resolve_height (s : FPDF) (h : ℚ) : ℚ :=
  if h = 0 then s._line_height
  else h * FPDF._k

/-- `FPDF._resolve_coordinate` for the x axis. -/
def FPDF._resolve_coordinate_x (s : FPDF) (value : Option ℚ) : ℚ :=
  match value with
  | none => s.x
  | some v => v * FPDF._k

/-- `FPDF._resolve_coordinate` for the y axis. -/
def FPDF._resolve_coordinate_y (s : FPDF) (value : Option ℚ) : ℚ :=
  match value with
  | none => s.y
  | some v => v * FPDF._k

/-- `FPDF.ln`. -/
def FPDF.ln (s : FPDF) (h : ℚ := 0) : FPDF :=
  { s with x := s.left_margin, y := s.y + s._resolve_height h }

/-- `FPDF._ensure_page`: lazily creates the first page. -/
def FPDF._ensure_page (s : FPDF) : FPDF :=
  if s.page = false then s.add_page else s

/-- `FPDF._trigger_page_break`: when auto page break is enabled and the
cursor plus the required height passes the bottom limit, appends a page. -/
def FPDF._trigger_page_break (s : FPDF) (height : ℚ) : FPDF :=
  if s.auto_page_break = false then s
  else
    if s.y + height > s.page_height - s.auto_page_break_margin then s.add_page
    else s

/-- The local dictionary `builtin_fonts` of `FPDF.set_font`: the four
built-in Helvetica variants exposed by PyMuPDF. Looking up any other key
raises `KeyError` in the Python code, modelled here by `none`. -/
def builtin_fonts (key : FontKey) : Option String :=
  if key = FontKey.create "HELVETICA" "" then some "helv"
  else if key = FontKey.create "HELVETICA" "B" then some "helvb"
  else if key = FontKey.create "HELVETICA" "I" then some "helvi"
  else if key = FontKey.create "HELVETICA" "BI" then some "helvbi"
  else none

/-- `dict.__setitem__` on the font map: point update. -/
def mapInsert (m : FontKey → Option String) (key : FontKey) (v : String) :
    FontKey → Option String :=
  fun key' => if key' = key then some v else m key'

/-- `dict.setdefault` on the font map: insert only when the key is absent. -/
def mapSetdefault (m : FontKey → Option String) (key : FontKey) (v : String) :
    FontKey → Option String :=
  if (m key).isSome then m else mapInsert m key v

/-- Errors raised by `FPDF.add_font`: `ValueError` when no path is given,
`FileNotFoundError` when the path does not exist. -/
inductive AddFontError where
  | valueError : AddFontError
  | fileNotFound : String → AddFontError
deriving DecidableEq

/-- `FPDF.add_font`: registers a custom font file under the normalized
(family, style) key. `fexists` is the filesystem oracle (`Path.exists`) and
`insert_font_oracle` the engine oracle (`Document.insert_font`, returning
the engine font name for the file). Both raises happen before any
mutation, so the error carries the unchanged state. -/
def FPDF.add_font (s : FPDF) (family : String) (style : String := "")
    (fname : Option String := none)
    (fexists : String → Bool := fun _ => false)
    (insert_font_oracle : String → String := fun _ => "F0") :
    Except (AddFontError × FPDF) FPDF :=
  match fname with
  | none => .error (.valueError, s)
  | some f =>
    if f = "" then .error (.valueError, s)
    else if fexists f = false then .error (.fileNotFound f, s)
    else
      let font_key := FontKey.create family style
      let font_name := insert_font_oracle f
      .ok { s with font_map := mapInsert s.font_map font_key font_name }

/-- The trailing `if size is not None: self.font_size = float(size)` step
of `FPDF.set_font`. -/
def FPDF.apply_size (s : FPDF) (size : Option ℚ) : FPDF :=
  match size with
  | none => s
  | some z => { s with font_size := z }

/-- `FPDF.set_font`: activates a registered (family, style) key, or falls
back to a built-in Helvetica variant keyed by the style. The Python
fallback branch assigns `self._font_key = builtin_key` and then evaluates
`builtin_fonts[builtin_key]`, which raises `KeyError` when the style is
not one of the four variants; the error therefore carries the state with
the font key already reassigned and the size not yet applied. -/
def FPDF.set_font (s : FPDF) (family : String) (style : String := "")
    (size : Option ℚ := none) : Except (String × FPDF) FPDF :=
  let font_key := FontKey.create family style
  if (s.font_map font_key).isSome then
    .ok (FPDF.apply_size { s with font_key := font_key } size)
  else
    let builtin_key := FontKey.create "HELVETICA" (pyUpper style)
    match builtin_fonts builtin_key with
    | none => .error ("KeyError", { s with font_key := builtin_key })
    | some fb =>
      .ok (FPDF.apply_size
        { s with
          font_key := builtin_key
          font_map := mapSetdefault s.font_map builtin_key fb } size)

/-- `FPDF.set_font_size`. -/
def FPDF.set_font_size (s : FPDF) (size : ℚ) : FPDF :=
  { s with font_size := size }

/-- `FPDF._current_font_name`: resolves the active key, installing the
plain Helvetica handle as a safe fallback when the key has no mapping.
Returns the name together with the (possibly updated) state, since the
Python property mutates `self._font_map` on the fallback path. -/
def FPDF._current_font_name (s : FPDF) : String × FPDF :=
  match s.font_map s.font_key with
  | some font_name => (font_name, s)
  | none => ("helv", { s with font_map := mapInsert s.font_map s.font_key "helv" })

/-- `FPDF.cell`: fixed-rectangle text placement. Resolves height and width,
runs the page-break check, draws the text in the rectangle anchored at the
(post-check) cursor, then applies the split advance model. -/
def FPDF.cell (s : FPDF) (w : ℚ := 0) (h : ℚ := 0) (txt : String := "")
    (new_x : Option XPos := none) (new_y : Option YPos := none) : FPDF :=
  let s := s._ensure_page
  let height := s._resolve_height h
  let width := s._resolve_width w
  let s := s._trigger_page_break height
  let fs := s._current_font_name
  let s := fs.2
  let s := { s with
    events := s.events ++ [Event.textbox s.x s.y (s.x + width) (s.y + height) txt] }
  let s :=
    match new_x with
    | none => { s with x := s.x + width }
    | some XPos.LMARGIN => { s with x := s.left_margin }
    | some XPos.LEFT => { s with x := s.left_margin }
    | some XPos.NEXT => { s with x := s.left_margin }
    | some XPos.RMARGIN => { s with x := s.page_width - s.right_margin }
    | some XPos.RIGHT => { s with x := s.page_width - s.right_margin }
  match new_y with
  | some YPos.NEXT =>
      { s with y := s.y + (if height = 0 then s._line_height else height) }
  | _ => s

/-- `FPDF.multi_cell`: reflowing text block. `report` is the oracle value
returned by the engine call `Page.insert_textbox` (the height consumed).
When the engine reports zero, the cursor advance falls back to one
line-height; the cursor then advances by the larger of the consumed height
and the resolved minimum height, and x resets to the left margin. -/
def FPDF.multi_cell (s : FPDF) (w : ℚ) (h : ℚ) (txt : String)
    (report : ℚ := 0) : FPDF :=
  let s := s._ensure_page
  let width := s._resolve_width w
  let min_height := s._resolve_height h
  let s := s._trigger_page_break min_height
  let bottom := s.page_height - s.bottom_margin
  let fs := s._current_font_name
  let s := fs.2
  let s := { s with
    events := s.events ++ [Event.textbox s.x s.y (s.x + width) bottom txt] }
  let used_height := report
  let used_height := if used_height = 0 then s._line_height else used_height
  { s with y := s.y + max used_height min_height, x := s.left_margin }

/-- `FPDF.image`: image placement. `pix` is the oracle for
`fitz.Pixmap(name)`: `some (pw, ph)` gives the intrinsic pixel dimensions,
`none` models a missing or undecodable file, whose exception propagates
after `_ensure_page` has already run; the error carries that state. -/
def FPDF.image (s : FPDF) (name : String) (x : Option ℚ := none)
    (y : Option ℚ := none) (w : ℚ := 0) (h : ℚ := 0)
    (pix : Option (ℚ × ℚ) := none) : Except FPDF FPDF :=
  let s := s._ensure_page
  match pix with
  | none => .error s
  | some (pw, ph) =>
    let wh : ℚ × ℚ :=
      if w ≠ 0 ∧ h = 0 then
        let width := s._resolve_width w
        (width, width * ph / pw)
      else if h ≠ 0 ∧ w = 0 then
        let height := s._resolve_height h
        (height * pw / ph, height)
      else if w ≠ 0 ∧ h ≠ 0 then
        (s._resolve_width w, s._resolve_height h)
      else
        (pw, ph)
    let x_pt := s._resolve_coordinate_x x
    let y_pt := s._resolve_coordinate_y y
    .ok { s with
      events := s.events ++ [Event.imageDraw x_pt y_pt (x_pt + wh.1) (y_pt + wh.2) name] }

/-- State carried by an `Except` result of a method whose error value is an
error kind paired with the object state: the object as the caller sees it
after the call, whether or not an exception propagated. -/
def exceptState {α : Type} : Except (α × FPDF) FPDF → FPDF
  | .ok s => s
  | .error (_, s) => s

/-- State carried by a result of `FPDF.image`: the object as the caller
sees it after the call, whether or not the load failed. -/
def imageState : Except FPDF FPDF → FPDF
  | .ok s => s
  | .error s => s

/-! Field-preservation helper lemmas. `_current_font_name` mutates only
`font_map`; `apply_size` mutates only `font_size`. -/

theorem cfn_events (s : FPDF) : s._current_font_name.2.events = s.events := by
  unfold FPDF._current_font_name; cases s.font_map s.font_key <;> rfl

theorem cfn_x (s : FPDF) : s._current_font_name.2.x = s.x := by
  unfold FPDF._current_font_name; cases s.font_map s.font_key <;> rfl

theorem cfn_y (s : FPDF) : s._current_font_name.2.y = s.y := by
  unfold FPDF._current_font_name; cases s.font_map s.font_key <;> rfl

theorem cfn_doc (s : FPDF) : s._current_font_name.2.doc = s.doc := by
  unfold FPDF._current_font_name; cases s.font_map s.font_key <;> rfl

theorem cfn_left_margin (s : FPDF) :
    s._current_font_name.2.left_margin = s.left_margin := by
  unfold FPDF._current_font_name; cases s.font_map s.font_key <;> rfl

theorem cfn_right_margin (s : FPDF) :
    s._current_font_name.2.right_margin = s.right_margin := by
  unfold FPDF._current_font_name; cases s.font_map s.font_key <;> rfl

theorem cfn_top_margin (s : FPDF) :
    s._current_font_name.2.top_margin = s.top_margin := by
  unfold FPDF._current_font_name; cases s.font_map s.font_key <;> rfl

theorem cfn_bottom_margin (s : FPDF) :
    s._current_font_name.2.bottom_margin = s.bottom_margin := by
  unfold FPDF._current_font_name; cases s.font_map s.font_key <;> rfl

theorem cfn_page_width (s : FPDF) :
    s._current_font_name.2.page_width = s.page_width := by
  unfold FPDF._current_font_name; cases s.font_map s.font_key <;> rfl

theorem cfn_page_height (s : FPDF) :
    s._current_font_name.2.page_height = s.page_height := by
  unfold FPDF._current_font_name; cases s.font_map s.font_key <;> rfl

theorem cfn_font_size (s : FPDF) :
    s._current_font_name.2.font_size = s.font_size := by
  unfold FPDF._current_font_name; cases s.font_map s.font_key <;> rfl

theorem ensure_page_of_page (s : FPDF) (hp : s.page = true) :
    s._ensure_page = s := by
  simp [FPDF._ensure_page, hp]

theorem trigger_break_of_overflow (s : FPDF) (hgt : ℚ)
    (ha : s.auto_page_break = true)
    (hov : s.y + hgt > s.page_height - s.auto_page_break_margin) :
    s._trigger_page_break hgt = s.add_page := by
  simp [FPDF._trigger_page_break, ha, hov]

theorem trigger_break_of_fits (s : FPDF) (hgt : ℚ)
    (hno : s.auto_page_break = false ∨
      ¬ s.y + hgt > s.page_height - s.auto_page_break_margin) :
    s._trigger_page_break hgt = s := by
  rcases hno with hno | hno <;> simp [FPDF._trigger_page_break, hno]

/-- Shape of the drawing trace of `cell` when a page already exists: the
page-break check runs on the pre-call cursor with the resolved height, the
textbox rectangle is anchored at the post-check cursor, and its width and
height are the ones resolved from the pre-check state. -/
theorem cell_events (s : FPDF) (w h : ℚ) (txt : String)
    (nx : Option XPos) (ny : Option YPos) (hp : s.page = true) :
    (s.cell w h txt nx ny).events =
      (s._trigger_page_break (s._resolve_height h)).events ++
      [Event.textbox (s._trigger_page_break (s._resolve_height h)).x
        (s._trigger_page_break (s._resolve_height h)).y
        ((s._trigger_page_break (s._resolve_height h)).x + s._resolve_width w)
        ((s._trigger_page_break (s._resolve_height h)).y + s._resolve_height h)
        txt] := by
  simp only [FPDF.cell, ensure_page_of_page s hp]
  rcases ny with _ | yv <;> rcases nx with _ | xv <;>
    (try cases xv) <;> (try cases yv) <;>
    simp [cfn_events, cfn_x, cfn_y]

/-- Shape of the drawing trace of `multi_cell` when a page already exists:
analogous to `cell_events`, with the textbox extending down to the bottom
margin. -/
theorem multi_cell_events (s : FPDF) (w h : ℚ) (txt : String) (r : ℚ)
    (hp : s.page = true) :
    (s.multi_cell w h txt r).events =
      (s._trigger_page_break (s._resolve_height h)).events ++
      [Event.textbox (s._trigger_page_break (s._resolve_height h)).x
        (s._trigger_page_break (s._resolve_height h)).y
        ((s._trigger_page_break (s._resolve_height h)).x + s._resolve_width w)
        ((s._trigger_page_break (s._resolve_height h)).page_height -
          (s._trigger_page_break (s._resolve_height h)).bottom_margin)
        txt] := by
  simp only [FPDF.multi_cell, ensure_page_of_page s hp]
  simp [cfn_events, cfn_x, cfn_y, cfn_page_height, cfn_bottom_margin]

/-- Cursor and page count of a `cell` call with no advance directives,
relative to the state right after the page-break check: x moves right by
the pre-check resolved width, y and the page count are those of the
post-check state. Holds when a page already exists. -/
theorem cell_x_default (s : FPDF) (w h : ℚ) (txt : String) (hp : s.page = true) :
    (s.cell w h txt none none).x =
      (s._trigger_page_break (s._resolve_height h)).x + s._resolve_width w ∧
    (s.cell w h txt none none).y =
      (s._trigger_page_break (s._resolve_height h)).y ∧
    (s.cell w h txt none none).doc =
      (s._trigger_page_break (s._resolve_height h)).doc := by
  simp only [FPDF.cell, ensure_page_of_page s hp]
  refine ⟨?_, ?_, ?_⟩ <;> simp [cfn_x, cfn_y, cfn_doc]

/-- C1: with auto page break enabled and trigger margin t, a required
height h with cursor y + h > page height − t makes the break check append
exactly one page and reset the cursor to (left margin, top margin); in a
`cell` or `multi_cell` call the appended page precedes the drawn text in
the document trace; with the break disabled or no overflow the check
leaves the whole state (page count and cursor included) unchanged. -/
theorem c1_auto_page_break (s : FPDF) (hgt w h r : ℚ) (txt : String)
    (nx : Option XPos) (ny : Option YPos) :
    (s.auto_page_break = true →
      s.y + hgt > s.page_height - s.auto_page_break_margin →
      (s._trigger_page_break hgt).doc = s.doc + 1 ∧
      (s._trigger_page_break hgt).x = s.left_margin ∧
      (s._trigger_page_break hgt).y = s.top_margin ∧
      (s._trigger_page_break hgt).events = s.events ++ [Event.newPage]) ∧
    ((s.auto_page_break = false ∨
       ¬ s.y + hgt > s.page_height - s.auto_page_break_margin) →
      s._trigger_page_break hgt = s) ∧
    (s.page = true → s.auto_page_break = true →
      s.y + s._resolve_height h > s.page_height - s.auto_page_break_margin →
      ∃ a b c d, (s.cell w h txt nx ny).events =
        s.events ++ [Event.newPage, Event.textbox a b c d txt]) ∧
    (s.page = true → s.auto_page_break = true →
      s.y + s._resolve_height h > s.page_height - s.auto_page_break_margin →
      ∃ a b c d, (s.multi_cell w h txt r).events =
        s.events ++ [Event.newPage, Event.textbox a b c d txt]) := by
  refine ⟨fun ha hov => ?_, trigger_break_of_fits s hgt, fun hp ha hov => ?_,
    fun hp ha hov => ?_⟩
  · rw [trigger_break_of_overflow s hgt ha hov]
    exact ⟨rfl, rfl, rfl, rfl⟩
  · refine ⟨s.left_margin, s.top_margin, s.left_margin + s._resolve_width w,
      s.top_margin + s._resolve_height h, ?_⟩
    rw [cell_events s w h txt nx ny hp, trigger_break_of_overflow s _ ha hov]
    simp [FPDF.add_page]
  · refine ⟨s.left_margin, s.top_margin, s.left_margin + s._resolve_width w,
      s.page_height - s.bottom_margin, ?_⟩
    rw [multi_cell_events s w h txt r hp, trigger_break_of_overflow s _ ha hov]
    simp [FPDF.add_page]

/-- Example canvas for exercising an automatic page break: A4 defaults,
one page, cursor moved near the bottom via `set_y`. -/
def exC1 : FPDF := (FPDF.init.add_page).set_y 280

/-- Witness for C1 at a concrete canvas: the break check on `exC1` with a
resolved 20 mm height appends one page and resets the cursor, and a `cell`
call draws its text after the appended page. -/
theorem c1_witness :
    exC1.auto_page_break = true ∧
    exC1.y + exC1._resolve_height 20 >
      exC1.page_height - exC1.auto_page_break_margin ∧
    (exC1._trigger_page_break (exC1._resolve_height 20)).doc = exC1.doc + 1 ∧
    (exC1._trigger_page_break (exC1._resolve_height 20)).x = exC1.left_margin ∧
    (exC1._trigger_page_break (exC1._resolve_height 20)).y = exC1.top_margin ∧
    ∃ a b c d, (exC1.cell 0 20 "t" none none).events =
      exC1.events ++ [Event.newPage, Event.textbox a b c d "t"] := by
  have H := c1_auto_page_break exC1 (exC1._resolve_height 20) 0 20 0 "t" none none
  have hov : exC1.y + exC1._resolve_height 20 >
      exC1.page_height - exC1.auto_page_break_margin := by
    norm_num [exC1, FPDF.init, FPDF.add_page, FPDF.set_y, FPDF._resolve_height,
      FPDF._line_height, FPDF._k]
  obtain ⟨h1, h2, h3, h4⟩ := H.1 rfl hov
  exact ⟨rfl, hov, h1, h2, h3, H.2.2.1 rfl rfl hov⟩

/-- C2 (amended): in `cell` and `multi_cell` the page-break check runs
after the width and the height are resolved but before the placement
rectangle is anchored: the rectangle's origin is the post-check cursor,
while a width-0 call resolves its default width from the pre-check cursor
— after a break it is measured from the old x, not from the new page's
left margin. -/
theorem c2_break_after_geometry (s : FPDF) (w h r : ℚ) (txt : String)
    (nx : Option XPos) (ny : Option YPos) (hp : s.page = true) :
    (s.cell w h txt nx ny).events =
      (s._trigger_page_break (s._resolve_height h)).events ++
      [Event.textbox (s._trigger_page_break (s._resolve_height h)).x
        (s._trigger_page_break (s._resolve_height h)).y
        ((s._trigger_page_break (s._resolve_height h)).x + s._resolve_width w)
        ((s._trigger_page_break (s._resolve_height h)).y + s._resolve_height h)
        txt] ∧
    (s.multi_cell w h txt r).events =
      (s._trigger_page_break (s._resolve_height h)).events ++
      [Event.textbox (s._trigger_page_break (s._resolve_height h)).x
        (s._trigger_page_break (s._resolve_height h)).y
        ((s._trigger_page_break (s._resolve_height h)).x + s._resolve_width w)
        ((s._trigger_page_break (s._resolve_height h)).page_height -
          (s._trigger_page_break (s._resolve_height h)).bottom_margin)
        txt] ∧
    s._resolve_width 0 = s.page_width - s.right_margin - s.x :=
  ⟨cell_events s w h txt nx ny hp, multi_cell_events s w h txt r hp, by
    simp [FPDF._resolve_width]⟩

/-- Witness for C2 (amended) at a concrete canvas. -/
theorem c2_witness :
    FPDF.init.add_page.page = true ∧
    FPDF.init.add_page._resolve_width 0 =
      FPDF.init.add_page.page_width - FPDF.init.add_page.right_margin -
        FPDF.init.add_page.x :=
  ⟨rfl, (c2_break_after_geometry FPDF.init.add_page 0 20 0 "t" none none rfl).2.2⟩

/-- Canvas with a page whose cursor x sits 50 mm from the left edge and
whose cursor y sits near the bottom, so a 20 mm cell triggers a break. -/
def exC2 : FPDF :=
  { FPDF.init.add_page with x := 50 * FPDF._k, y := 280 * FPDF._k }

/-- C2 is false as stated: this width-0 `cell` call triggers a page break,
yet its default width is resolved from the cursor before the break (x = 50
mm), not from the new page's left margin, as the final cursor x shows. -/
theorem c2_counterexample :
    (exC2.cell 0 20 "t" none none).doc = exC2.doc + 1 ∧
    (exC2.cell 0 20 "t" none none).x =
      exC2.left_margin + (exC2.page_width - exC2.right_margin - 50 * FPDF._k) ∧
    ¬ (exC2.cell 0 20 "t" none none).x =
      exC2.left_margin +
        (exC2.page_width - exC2.right_margin - exC2.left_margin) := by
  have hov : exC2.y + exC2._resolve_height 20 >
      exC2.page_height - exC2.auto_page_break_margin := by
    norm_num [exC2, FPDF.init, FPDF.add_page, FPDF._resolve_height,
      FPDF._line_height, FPDF._k]
  have hx := (cell_x_default exC2 0 20 "t" rfl).1
  have hdoc := (cell_x_default exC2 0 20 "t" rfl).2.2
  rw [trigger_break_of_overflow exC2 _ rfl hov] at hx hdoc
  refine ⟨?_, ?_, ?_⟩
  · rw [hdoc]; rfl
  · rw [hx]
    norm_num [exC2, FPDF.init, FPDF.add_page, FPDF._resolve_width, FPDF._k]
  · rw [hx]
    norm_num [exC2, FPDF.init, FPDF.add_page, FPDF._resolve_width, FPDF._k]

theorem apply_size_font_map (s : FPDF) (size : Option ℚ) :
    (FPDF.apply_size s size).font_map = s.font_map := by
  cases size <;> rfl

theorem apply_size_font_key (s : FPDF) (size : Option ℚ) :
    (FPDF.apply_size s size).font_key = s.font_key := by
  cases size <;> rfl

theorem mapSetdefault_self_isSome (m : FontKey → Option String) (k : FontKey)
    (v : String) : ((mapSetdefault m k v) k).isSome = true := by
  unfold mapSetdefault mapInsert
  by_cases hm : (m k).isSome = true
  · simp [hm]
  · simp [hm]

/-- C3 (amended): `set_font` returns without raising and leaves the canvas
with an active font key that resolves to a font handle whenever the
requested (family, style) key is registered or the upper-cased style is
one of the four built-in Helvetica variants "", "B", "I", "BI" — in
particular for every family, registered or not, under those styles. For
an unregistered key with any other style the fallback dictionary lookup
raises `KeyError`. -/
theorem c3_set_font_total_on_builtin_styles (s : FPDF) (family style : String)
    (size : Option ℚ)
    (hok : (s.font_map (FontKey.create family style)).isSome = true ∨
      (builtin_fonts (FontKey.create "HELVETICA" (pyUpper style))).isSome = true) :
    ∃ s', s.set_font family style size = .ok s' ∧
      (s'.font_map s'.font_key).isSome = true := by
  unfold FPDF.set_font
  by_cases hreg : (s.font_map (FontKey.create family style)).isSome = true
  · simp only [hreg, if_true]
    exact ⟨_, rfl, by
      rw [apply_size_font_map, apply_size_font_key]; exact hreg⟩
  · have hb : (builtin_fonts (FontKey.create "HELVETICA" (pyUpper style))).isSome
        = true := hok.resolve_left hreg
    obtain ⟨fb, hfb⟩ := Option.isSome_iff_exists.mp hb
    simp only [hreg, if_false, hfb]
    exact ⟨_, rfl, by
      rw [apply_size_font_map, apply_size_font_key]
      exact mapSetdefault_self_isSome _ _ _⟩

/-- Witness for C3 (amended): selecting the never-registered family "Foo"
in bold on a fresh canvas succeeds and activates a resolvable font. -/
theorem c3_witness :
    (builtin_fonts (FontKey.create "HELVETICA" (pyUpper "b"))).isSome = true ∧
    ∃ s', FPDF.init.set_font "Foo" "b" none = .ok s' ∧
      (s'.font_map s'.font_key).isSome = true :=
  ⟨rfl, c3_set_font_total_on_builtin_styles FPDF.init "Foo" "b" none
    (Or.inr rfl)⟩

/-- C3 is false as stated: selecting an unregistered family with the style
"X" raises `KeyError` from the built-in fallback dictionary (with the
active font key already reassigned to the missing fallback key). -/
theorem c3_counterexample :
    FPDF.init.set_font "ARIAL" "X" none =
      .error ("KeyError",
        { FPDF.init with font_key := FontKey.create "HELVETICA" "X" }) := rfl

/-- C4 (amended): when an `image` call fails to load its file, the error
propagates and — provided a page already existed — the canvas state
(cursor and page count included) is exactly what it was before the call;
when no page existed, the lazily created first page remains: the page
count has incremented and the cursor sits at the margins. -/
theorem c4_image_error_state (s : FPDF) (name : String) (x y : Option ℚ)
    (w h : ℚ) :
    (s.page = true → s.image name x y w h none = .error s) ∧
    (s.page = false →
      s.image name x y w h none = .error s.add_page ∧
      s.add_page.doc = s.doc + 1 ∧
      s.add_page.x = s.left_margin ∧ s.add_page.y = s.top_margin) := by
  constructor
  · intro hp
    simp [FPDF.image, ensure_page_of_page s hp]
  · intro hp
    refine ⟨?_, rfl, rfl, rfl⟩
    simp [FPDF.image, FPDF._ensure_page, hp]

/-- Witness for C4 (amended): a failing load on a canvas that already has
a page leaves the state untouched. -/
theorem c4_witness :
    FPDF.init.add_page.page = true ∧
    FPDF.init.add_page.image "missing.png" none none 0 0 none =
      .error FPDF.init.add_page :=
  ⟨rfl, (c4_image_error_state FPDF.init.add_page "missing.png" none none 0 0).1
    rfl⟩

/-- C4 is false as stated: on a fresh canvas with no page, a failing
`image` call still creates the lazy first page, so the page sequence is
not what it was before the call. -/
theorem c4_counterexample :
    FPDF.init.image "missing.png" none none 0 0 none =
      .error FPDF.init.add_page ∧
    ¬ FPDF.init.add_page.doc = FPDF.init.doc :=
  ⟨rfl, by simp [FPDF.add_page, FPDF.init]⟩

theorem ensure_left_margin (s : FPDF) :
    s._ensure_page.left_margin = s.left_margin := by
  unfold FPDF._ensure_page
  split <;> rfl

theorem ensure_font_size (s : FPDF) :
    s._ensure_page.font_size = s.font_size := by
  unfold FPDF._ensure_page
  split <;> rfl

theorem ensure_resolve_height (s : FPDF) (h : ℚ) :
    s._ensure_page._resolve_height h = s._resolve_height h := by
  unfold FPDF._resolve_height FPDF._line_height
  rw [ensure_font_size]

theorem trigger_left_margin (s : FPDF) (hgt : ℚ) :
    (s._trigger_page_break hgt).left_margin = s.left_margin := by
  unfold FPDF._trigger_page_break
  split
  · rfl
  · split <;> rfl

theorem trigger_font_size (s : FPDF) (hgt : ℚ) :
    (s._trigger_page_break hgt).font_size = s.font_size := by
  unfold FPDF._trigger_page_break
  split
  · rfl
  · split <;> rfl

/-- Cursor after `multi_cell`, in terms of the state reached after the
lazy page creation and the page-break check: x resets to the left margin
and y advances by the larger of the engine-consumed height (one
line-height when the engine reports zero) and the resolved minimum
height. -/
theorem multi_cell_cursor (s : FPDF) (w h : ℚ) (txt : String) (report : ℚ) :
    (s.multi_cell w h txt report).x = s.left_margin ∧
    (s.multi_cell w h txt report).y =
      (s._ensure_page._trigger_page_break (s._resolve_height h)).y +
        max (if report = 0 then s._line_height else report)
          (s._resolve_height h) := by
  constructor
  · simp [FPDF.multi_cell, cfn_left_margin, trigger_left_margin,
      ensure_left_margin, ensure_resolve_height]
  · simp only [FPDF.multi_cell, ensure_resolve_height]
    simp [cfn_y, cfn_font_size, trigger_font_size, ensure_font_size,
      FPDF._line_height]

/-- C5: `multi_cell` always strictly advances the cursor y (relative to
the post-page-break cursor) when the font size is positive and the engine
reports a nonnegative consumed height: y advances by the maximum of the
consumed height and the resolved minimum height, with a fallback of one
line-height when the engine reports zero, and x resets to the left
margin. -/
theorem c5_multi_cell_advances (s : FPDF) (w h : ℚ) (txt : String)
    (report : ℚ) (hr : 0 ≤ report) (hf : 0 < s.font_size) :
    (s.multi_cell w h txt report).x = s.left_margin ∧
    (s.multi_cell w h txt report).y =
      (s._ensure_page._trigger_page_break (s._resolve_height h)).y +
        max (if report = 0 then s._line_height else report)
          (s._resolve_height h) ∧
    (report = 0 →
      (s.multi_cell w h txt report).y ≥
        (s._ensure_page._trigger_page_break (s._resolve_height h)).y +
          s._line_height) ∧
    (s.multi_cell w h txt report).y >
      (s._ensure_page._trigger_page_break (s._resolve_height h)).y := by
  obtain ⟨hx, hy⟩ := multi_cell_cursor s w h txt report
  have hlh : 0 < s._line_height := by
    unfold FPDF._line_height
    nlinarith
  refine ⟨hx, hy, fun h0 => ?_, ?_⟩
  · rw [hy, if_pos h0]
    have := le_max_left s._line_height (s._resolve_height h)
    linarith
  · rw [hy]
    by_cases h0 : report = 0
    · rw [if_pos h0]
      have := le_max_left s._line_height (s._resolve_height h)
      linarith
    · rw [if_neg h0]
      have hrp : 0 < report := lt_of_le_of_ne hr (Ne.symm h0)
      have := le_max_left report (s._resolve_height h)
      linarith

/-- Witness for C5: a `multi_cell` on a fresh canvas with a zero engine
report still strictly advances the cursor y. -/
theorem c5_witness :
    (0 : ℚ) ≤ 0 ∧ (0 : ℚ) < FPDF.init.font_size ∧
    (FPDF.init.multi_cell 0 0 "x" 0).x = FPDF.init.left_margin ∧
    (FPDF.init.multi_cell 0 0 "x" 0).y >
      (FPDF.init._ensure_page._trigger_page_break
        (FPDF.init._resolve_height 0)).y := by
  have H := c5_multi_cell_advances FPDF.init 0 0 "x" 0 le_rfl
    (by norm_num [FPDF.init])
  exact ⟨le_rfl, by norm_num [FPDF.init], H.1, H.2.2.2⟩

/-- C6: `image` sizing follows the stated priority. With intrinsic pixel
dimensions (pw, ph): width and height both given are used as-is (converted
to native units); width only gives placed height width × ph / pw; height
only gives placed width height × pw / ph; neither given uses (pw, ph)
directly with no millimetre conversion. The placed rectangle is the one
recorded in the drawing trace, anchored at the resolved coordinates. -/
theorem c6_image_sizing (s : FPDF) (name : String) (x y : Option ℚ)
    (w h pw ph : ℚ) :
    (w ≠ 0 → h = 0 →
      s.image name x y w h (some (pw, ph)) =
        .ok { s._ensure_page with
          events := s._ensure_page.events ++
            [Event.imageDraw (s._ensure_page._resolve_coordinate_x x)
              (s._ensure_page._resolve_coordinate_y y)
              (s._ensure_page._resolve_coordinate_x x + w * FPDF._k)
              (s._ensure_page._resolve_coordinate_y y + w * FPDF._k * ph / pw)
              name] }) ∧
    (h ≠ 0 → w = 0 →
      s.image name x y w h (some (pw, ph)) =
        .ok { s._ensure_page with
          events := s._ensure_page.events ++
            [Event.imageDraw (s._ensure_page._resolve_coordinate_x x)
              (s._ensure_page._resolve_coordinate_y y)
              (s._ensure_page._resolve_coordinate_x x + h * FPDF._k * pw / ph)
              (s._ensure_page._resolve_coordinate_y y + h * FPDF._k)
              name] }) ∧
    (w ≠ 0 → h ≠ 0 →
      s.image name x y w h (some (pw, ph)) =
        .ok { s._ensure_page with
          events := s._ensure_page.events ++
            [Event.imageDraw (s._ensure_page._resolve_coordinate_x x)
              (s._ensure_page._resolve_coordinate_y y)
              (s._ensure_page._resolve_coordinate_x x + w * FPDF._k)
              (s._ensure_page._resolve_coordinate_y y + h * FPDF._k)
              name] }) ∧
    (w = 0 → h = 0 →
      s.image name x y w h (some (pw, ph)) =
        .ok { s._ensure_page with
          events := s._ensure_page.events ++
            [Event.imageDraw (s._ensure_page._resolve_coordinate_x x)
              (s._ensure_page._resolve_coordinate_y y)
              (s._ensure_page._resolve_coordinate_x x + pw)
              (s._ensure_page._resolve_coordinate_y y + ph)
              name] }) := by
  refine ⟨fun hw hh => ?_, fun hh hw => ?_, fun hw hh => ?_, fun hw hh => ?_⟩ <;>
    simp [FPDF.image, FPDF._resolve_width, FPDF._resolve_height, hw, hh]

/-- Witness for C6: a width-only image call on a fresh canvas places a
height scaled by the intrinsic aspect ratio. -/
theorem c6_witness :
    (50 : ℚ) ≠ 0 ∧ (0 : ℚ) = 0 ∧
    FPDF.init.image "i.png" none none 50 0 (some (100, 60)) =
      .ok { FPDF.init._ensure_page with
        events := FPDF.init._ensure_page.events ++
          [Event.imageDraw (FPDF.init._ensure_page._resolve_coordinate_x none)
            (FPDF.init._ensure_page._resolve_coordinate_y none)
            (FPDF.init._ensure_page._resolve_coordinate_x none + 50 * FPDF._k)
            (FPDF.init._ensure_page._resolve_coordinate_y none +
              50 * FPDF._k * 60 / 100)
            "i.png"] } := by
  refine ⟨by norm_num, rfl, ?_⟩
  exact (c6_image_sizing FPDF.init "i.png" none none 50 0 100 60).1
    (by norm_num) rfl

/-- C7: registering a font whose file path does not exist fails with the
file-not-found error kind before any mutation, so the font registry is the
one from before the call, and a subsequent `set_font` for that (family,
style) still goes through the built-in fallback path: the active key it
leaves behind is the HELVETICA fallback key, whether the fallback lookup
succeeds or raises. -/
theorem c7_add_font_missing_file (s : FPDF) (family style fname : String)
    (fex : String → Bool) (ins : String → String) (size : Option ℚ)
    (hne : fname ≠ "") (hmiss : fex fname = false)
    (hreg : s.font_map (FontKey.create family style) = none) :
    s.add_font family style (some fname) fex ins =
      .error (.fileNotFound fname, s) ∧
    (exceptState (s.set_font family style size)).font_key =
      FontKey.create "HELVETICA" (pyUpper style) := by
  constructor
  · simp [FPDF.add_font, hne, hmiss]
  · unfold FPDF.set_font
    have hns : (s.font_map (FontKey.create family style)).isSome = false := by
      rw [hreg]; rfl
    simp only [hns, Bool.false_eq_true, if_false]
    cases hb : builtin_fonts (FontKey.create "HELVETICA" (pyUpper style)) <;>
      simp [exceptState, hb, apply_size_font_key]

/-- Witness for C7: registering "Foo" bold from a missing file on a fresh
canvas fails with file-not-found, and selecting "Foo" bold afterwards
activates the built-in Helvetica bold fallback key. -/
theorem c7_witness :
    ("nofile.ttf" : String) ≠ "" ∧
    FPDF.init.add_font "Foo" "B" (some "nofile.ttf") (fun _ => false)
      (fun _ => "F0") = .error (.fileNotFound "nofile.ttf", FPDF.init) ∧
    (exceptState (FPDF.init.set_font "Foo" "B" none)).font_key =
      FontKey.create "HELVETICA" (pyUpper "B") := by
  have H := c7_add_font_missing_file FPDF.init "Foo" "B" "nofile.ttf"
    (fun _ => false) (fun _ => "F0") none (by decide) rfl rfl
  exact ⟨by decide, H.1, H.2⟩

/-- C8 (amended): for a `cell` call with no advance directives, provided a
page already exists and the call does not trigger an automatic page break,
the cursor moves right by exactly the resolved cell width and the cursor y
is unchanged; width 0 resolves to the remaining width to the right margin
(page width − right margin − cursor x) and height 0 resolves to one
line-height. -/
theorem c8_cell_default_advance (s : FPDF) (w h : ℚ) (txt : String)
    (hp : s.page = true)
    (hnb : s.auto_page_break = false ∨
      ¬ s.y + s._resolve_height h >
          s.page_height - s.auto_page_break_margin) :
    (s.cell w h txt none none).x = s.x + s._resolve_width w ∧
    (s.cell w h txt none none).y = s.y ∧
    s._resolve_width 0 = s.page_width - s.right_margin - s.x ∧
    s._resolve_height 0 = s._line_height := by
  obtain ⟨hx, hy, _⟩ := cell_x_default s w h txt hp
  rw [trigger_break_of_fits s _ hnb] at hx hy
  exact ⟨hx, hy, by simp [FPDF._resolve_width], by simp [FPDF._resolve_height]⟩

/-- Witness for C8 (amended): a 50 × 20 mm cell on a fresh page moves the
cursor right by the resolved width and leaves y unchanged. -/
theorem c8_witness :
    FPDF.init.add_page.page = true ∧
    ¬ FPDF.init.add_page.y + FPDF.init.add_page._resolve_height 20 >
        FPDF.init.add_page.page_height -
          FPDF.init.add_page.auto_page_break_margin ∧
    (FPDF.init.add_page.cell 50 20 "t" none none).x =
      FPDF.init.add_page.x + FPDF.init.add_page._resolve_width 50 ∧
    (FPDF.init.add_page.cell 50 20 "t" none none).y = FPDF.init.add_page.y := by
  have hnb : ¬ FPDF.init.add_page.y + FPDF.init.add_page._resolve_height 20 >
      FPDF.init.add_page.page_height -
        FPDF.init.add_page.auto_page_break_margin := by
    norm_num [FPDF.init, FPDF.add_page, FPDF._resolve_height,
      FPDF._line_height, FPDF._k]
  have H := c8_cell_default_advance FPDF.init.add_page 50 20 "t" rfl
    (Or.inr hnb)
  exact ⟨rfl, hnb, H.1, H.2.1⟩

/-- Canvas with a page and the cursor near the bottom; a 20 mm cell on it
triggers an automatic page break. -/
def exC8 : FPDF := { FPDF.init.add_page with y := 280 * FPDF._k }

/-- C8 is false as stated: a `cell` call with no advance directives that
triggers an automatic page break does change the cursor y (it resets to
the top margin of the new page). -/
theorem c8_counterexample :
    ¬ (exC8.cell 0 20 "t" none none).y = exC8.y := by
  have hov : exC8.y + exC8._resolve_height 20 >
      exC8.page_height - exC8.auto_page_break_margin := by
    norm_num [exC8, FPDF.init, FPDF.add_page, FPDF._resolve_height,
      FPDF._line_height, FPDF._k]
  have hy := (cell_x_default exC8 0 20 "t" rfl).2.1
  rw [trigger_break_of_overflow exC8 _ rfl hov] at hy
  rw [hy]
  norm_num [exC8, FPDF.init, FPDF.add_page, FPDF._k]

/-- C9 (amended): a successful `image` call on a canvas that already has a
page leaves the cursor, the margins, the page count and the whole font
state exactly as they were; its only canvas effect is appending one image
drawing to the trace. When no page exists yet, the lazy first-page
creation resets the cursor to the margins before the image is drawn. -/
theorem c9_image_frame (s : FPDF) (name : String) (x y : Option ℚ)
    (w h pw ph : ℚ) (hp : s.page = true) :
    ∃ s', s.image name x y w h (some (pw, ph)) = .ok s' ∧
      s'.x = s.x ∧ s'.y = s.y ∧
      s'.left_margin = s.left_margin ∧ s'.right_margin = s.right_margin ∧
      s'.top_margin = s.top_margin ∧ s'.bottom_margin = s.bottom_margin ∧
      s'.font_size = s.font_size ∧ s'.font_key = s.font_key ∧
      s'.font_map = s.font_map ∧ s'.doc = s.doc ∧ s'.page = s.page ∧
      ∃ a b c d, s'.events = s.events ++ [Event.imageDraw a b c d name] := by
  unfold FPDF.image
  rw [ensure_page_of_page s hp]
  exact ⟨_, rfl, rfl, rfl, rfl, rfl, rfl, rfl, rfl, rfl, rfl, rfl, rfl,
    ⟨_, _, _, _, rfl⟩⟩

/-- Witness for C9 (amended): a successful image call on a fresh page
leaves the cursor where it was. -/
theorem c9_witness :
    FPDF.init.add_page.page = true ∧
    ∃ s', FPDF.init.add_page.image "i.png" none none 0 0 (some (100, 60)) =
        .ok s' ∧
      s'.x = FPDF.init.add_page.x ∧ s'.y = FPDF.init.add_page.y ∧
      s'.left_margin = FPDF.init.add_page.left_margin ∧
      s'.right_margin = FPDF.init.add_page.right_margin ∧
      s'.top_margin = FPDF.init.add_page.top_margin ∧
      s'.bottom_margin = FPDF.init.add_page.bottom_margin ∧
      s'.font_size = FPDF.init.add_page.font_size ∧
      s'.font_key = FPDF.init.add_page.font_key ∧
      s'.font_map = FPDF.init.add_page.font_map ∧
      s'.doc = FPDF.init.add_page.doc ∧
      s'.page = FPDF.init.add_page.page ∧
      ∃ a b c d, s'.events =
        FPDF.init.add_page.events ++ [Event.imageDraw a b c d "i.png"] :=
  ⟨rfl, c9_image_frame FPDF.init.add_page "i.png" none none 0 0 100 60 rfl⟩

/-- Canvas with no page whose cursor was moved down by `set_y`. -/
def exC9 : FPDF := FPDF.init.set_y 50

/-- C9 is false as stated: on a canvas with no page, a successful `image`
call lazily creates the first page, and that creation resets the cursor,
so the cursor after the call differs from the cursor before it. -/
theorem c9_counterexample :
    ¬ (imageState (exC9.image "i.png" none none 0 0 (some (100, 60)))).y
        = exC9.y := by
  have h1 : (imageState (exC9.image "i.png" none none 0 0 (some (100, 60)))).y
      = exC9.add_page.y := rfl
  rw [h1]
  norm_num [exC9, FPDF.init, FPDF.add_page, FPDF.set_y, FPDF._k]

/-- C10: `set_y` followed by `get_y` returns the value unchanged under
exact rational arithmetic, since both use the same fixed factor
`k = 72 / 25.4`; and `get_y` always returns the stored native-unit cursor
y divided by k. -/
theorem c10_set_y_get_y_inverse (s : FPDF) (v : ℚ) :
    (s.set_y v).get_y = v ∧ s.get_y = s.y / FPDF._k := by
  constructor
  · show v * FPDF._k / FPDF._k = v
    rw [mul_div_assoc, div_self (by norm_num [FPDF._k]), mul_one]
  · rfl
